import Mathlib

set_option maxRecDepth 100000

/-!
Shallow embedding of the LangGraph coaching agent in `app.py`.

The embedding covers: the pydantic record schemas (with their list-length
bounds), the seven graph node functions (`diagnostic_node`,
`social_analysis_node`, `study_guide_permission_node`,
`conversation_analysis_node`, `goal_setting_node`, `action_planning_node`,
`save_permission_node`), the conditional-edge routing and graph execution,
the Flask `/agent` endpoint with its in-memory `sessions` table, and the
`/agent/reset` endpoint.

External LLM invocations are modelled by an `Env` record holding the
outcome of each possible chain invocation during one turn (the code calls
each distinct chain at most once per turn).  A structured-output call is
modelled by `structuredCall`, which fails when the generator errors or when
the returned value violates the pydantic schema constraints.  State updates
returned by nodes are applied directly (the `operator.add` annotation on
`messages` concatenates; every other key is replaced), exactly as LangGraph
merges partial updates.

Graph execution additionally returns a list of ghost `Event` observations
(`entered node` when a node runs, `extracted k` when a node's
phase-completion branch successfully produces the structured record `k`);
these observations do not influence any state and exist only so that
temporal properties can be stated.
-/

/-! ## Pydantic record schemas (app.py lines 324-379) -/

inductive Confidence where
  | low | medium | high
  deriving DecidableEq, Repr

structure DiagnosticInsight where
  main_challenge : String
  supporting_evidence : String
  confidence_level : Confidence
  deriving DecidableEq, Repr

inductive Severity where
  | mild | moderate | significant
  deriving DecidableEq, Repr

structure SocialSkillAnalysis where
  skill_gaps : List String
  strengths : List String
  context : String
  severity : Severity
  deriving DecidableEq, Repr

structure ConversationInsight where
  recurring_challenge : String
  primary_strength : String
  actionable_insight : String
  emotional_state : String
  deriving DecidableEq, Repr

structure SMARTGoal where
  goal : String
  specific : String
  measurable : String
  achievable : String
  relevant : String
  timebound : String
  deriving DecidableEq, Repr

structure GoalSet where
  goals : List SMARTGoal
  deriving DecidableEq, Repr

inductive Difficulty where
  | easy | medium | challenging
  deriving DecidableEq, Repr

structure DailyTask where
  task_title : String
  description : String
  duration_minutes : Int
  difficulty : Difficulty
  why_this_matters : String
  deriving DecidableEq, Repr

structure DayPlan where
  day : Int
  theme : String
  tasks : List DailyTask
  reflection_prompt : String
  deriving DecidableEq, Repr

structure ActionPlan where
  plan_title : String
  days : List DayPlan
  success_metrics : List String
  deriving DecidableEq, Repr

structure StudyGuideDay where
  day : Int
  topic : String
  key_concepts : List String
  practical_exercise : String
  resources : List String
  deriving DecidableEq, Repr

structure StudyGuide where
  guide_title : String
  days : List StudyGuideDay
  deriving DecidableEq, Repr

/-! ## Schema validation

Pydantic validates each model when the structured-output parser constructs
it.  Typed fields and `Literal` enumerations are enforced by the Lean types
themselves; the only residual constraints are the `min_items` / `max_items`
bounds declared on list fields.  Note that `SocialSkillAnalysis` declares
no bound on `skill_gaps` (app.py line 330), so its validation is vacuous.
-/

def DiagnosticInsight.valid (_ : DiagnosticInsight) : Bool := true

def SocialSkillAnalysis.valid (_ : SocialSkillAnalysis) : Bool := true

def ConversationInsight.valid (_ : ConversationInsight) : Bool := true

def GoalSet.valid (g : GoalSet) : Bool :=
  g.goals.length == 3

def DayPlan.valid (d : DayPlan) : Bool :=
  decide (2 ≤ d.tasks.length ∧ d.tasks.length ≤ 3)

def ActionPlan.valid (p : ActionPlan) : Bool :=
  (p.days.length == 5) && p.days.all DayPlan.valid

def StudyGuideDay.valid (d : StudyGuideDay) : Bool :=
  decide (3 ≤ d.key_concepts.length ∧ d.key_concepts.length ≤ 4)

def StudyGuide.valid (g : StudyGuide) : Bool :=
  (g.days.length == 5) && g.days.all StudyGuideDay.valid

/-! ## Messages and agent state (app.py lines 383-400) -/

inductive Role where
  | human | ai
  deriving DecidableEq, Repr

structure Message where
  role : Role
  content : String
  deriving DecidableEq, Repr

structure AgentState where
  messages : List Message
  user_id : String
  current_phase : String
  diagnostic_count : Nat
  social_analysis_count : Nat
  api_key : String
  diagnostic_insight : Option DiagnosticInsight
  social_analysis : Option SocialSkillAnalysis
  conversation_insight : Option ConversationInsight
  goals : Option GoalSet
  action_plan : Option ActionPlan
  study_guide : Option StudyGuide
  save_study_guide : Option Bool
  save_action_plan : Option Bool
  aibrain_doc_id : Option String
  deriving DecidableEq, Repr

/-! ## Errors and the external-collaborator environment -/

/-- Python exceptions that the node functions can raise: the explicit
`ValueError` for a missing api key (caught as a 400 by the endpoint), a
generation / structured-output-parsing failure from a chain invocation,
the `AttributeError` from reading an attribute of a `None` record inside a
prompt f-string, and the `IndexError` from `messages[-1]` on an empty log. -/
inductive PyErr where
  | valueError (msg : String)
  | genFailure (msg : String)
  | attributeError
  | indexError
  deriving DecidableEq, Repr

/-- Outcomes of the external generation collaborator for one turn.  Each
field is the result of one distinct chain invocation; the code performs
each at most once per turn.  `persistResult` models the availability of the
persistence collaborator (Firebase): the source's save call inside
`save_permission_node` is commented out (app.py lines 1340-1345) and the
document id is hard-coded to `"mock_doc_id"`, so the code never consults
this field. -/
structure Env where
  diagnosticReply : Except String String
  diagnosticInsightResult : Except String DiagnosticInsight
  socialReply : Except String String
  socialAnalysisResult : Except String SocialSkillAnalysis
  studyGuideResult : Except String StudyGuide
  conversationInsightResult : Except String ConversationInsight
  goalSetResult : Except String GoalSet
  actionPlanResult : Except String ActionPlan
  persistResult : Except String String

/-- A structured-output chain invocation: fails when the generator errors,
and the returned value is validated against the pydantic schema - a value
violating the schema raises an output-parsing exception instead of being
returned. -/
def structuredCall {α : Type} (r : Except String α) (valid : α → Bool) :
    Except PyErr α :=
  match r with
  | .error e => .error (.genFailure e)
  | .ok v => if valid v then .ok v else .error (.genFailure "schema validation failed")

instance {ε α : Type} [DecidableEq ε] [DecidableEq α] : DecidableEq (Except ε α) := fun a b =>
  match a, b with
  | .error e1, .error e2 =>
    if h : e1 = e2 then .isTrue (by rw [h])
    else .isFalse (by intro hc; injection hc; exact h ‹e1 = e2›)
  | .error _, .ok _ => .isFalse (by intro hc; exact Except.noConfusion hc)
  | .ok _, .error _ => .isFalse (by intro hc; exact Except.noConfusion hc)
  | .ok v1, .ok v2 =>
    if h : v1 = v2 then .isTrue (by rw [h])
    else .isFalse (by intro hc; injection hc; exact h ‹v1 = v2›)

/-! ## Ghost observations -/

/-- The five per-phase structured records tracked by the session state. -/
inductive RecKind where
  | diag | social | conv | goals | plan
  deriving DecidableEq, Repr

/-- Whether the structured record `k` is set (non-null) in state `s`. -/
def recSet (k : RecKind) (s : AgentState) : Bool :=
  match k with
  | .diag => s.diagnostic_insight.isSome
  | .social => s.social_analysis.isSome
  | .conv => s.conversation_insight.isSome
  | .goals => s.goals.isSome
  | .plan => s.action_plan.isSome

/-- Ghost observations of one graph execution: which nodes ran, and which
phase-completion branches successfully produced their structured record. -/
inductive Event where
  | entered (node : String)
  | extracted (k : RecKind)
  deriving DecidableEq, Repr

/-! ## Substring matching (python `word in last_message`) -/

/-- `isSub needle hay`: `needle` occurs as a contiguous substring of
`hay` (python's `in` operator on strings, over the character lists). -/
def isSub (needle : List Char) : List Char → Bool
  | [] => needle.isEmpty
  | c :: t => needle.isPrefixOf (c :: t) || isSub needle t

/-- Lowercased character list of a string (python `.lower()`). -/
def lowerChars (s : String) : List Char :=
  s.data.map Char.toLower

/-- python `any(word in last_message for word in words)`. -/
def containsAny (hay : List Char) (words : List String) : Bool :=
  words.any (fun w => isSub w.data hay)

/-- Affirmative keyword list of `study_guide_permission_node`
(app.py line 1221). -/
def studyAffirmWords : List String := ["yes", "sure", "okay", "y", "please"]

/-- Negative keyword list of `study_guide_permission_node`
(app.py line 1240). -/
def studyNegWords : List String := ["no", "not", "skip", "n"]

/-- Affirmative keyword list of `save_permission_node` (app.py line 1339). -/
def saveAffirmWords : List String := ["yes", "sure", "save", "okay", "y"]

/-- Negative keyword list of `save_permission_node` (app.py line 1354). -/
def saveNegWords : List String := ["no", "not", "skip", "n"]

/-! ## Fixed message texts produced by the nodes -/

def greetingText : String :=
  "Hi! I\x27m Alex, your social skills coach. I\x27m here to help you build genuine connections and feel more confident in social situations. What brings you here today?"

def diagCompleteMsg (challenge : String) : String :=
  "I now have a clear understanding of your main challenge: " ++ challenge ++ ". Let me ask a few more specific questions to pinpoint exactly which skills we should focus on."

def socialCompleteMsg (gaps : List String) : String :=
  "I\x27ve identified your key skill gaps: " ++ String.intercalate ", " gaps ++ ". Would you like me to create a personalized 5-day study guide to help you develop these skills? (yes/no)"

def studyYesMsg (title : String) : String :=
  "Perfect! I\x27ve created \x27" ++ title ++ "\x27 for you. Now let me analyze our full conversation to create your personalized goals."

def studyNoMsg : String :=
  "No problem! Let me move forward with analyzing our conversation and creating your goals."

def studyUnclearMsg : String :=
  "I need a clear yes or no - would you like me to create the study guide?"

def convMsg (i : ConversationInsight) : String :=
  "Key insight: " ++ i.actionable_insight ++ "\n\nYour strength: " ++ i.primary_strength ++ "\n\nLet me create your goals now."

def goalLine (i : Nat) (g : SMARTGoal) : String :=
  "🎯 Goal " ++ toString (i + 1) ++ ": " ++ g.goal ++ "\n   Measurable: " ++ g.measurable ++ "\n   Timeline: " ++ g.timebound

def goalsMsg (gs : GoalSet) : String :=
  "Here are your 3 SMART goals:\n\n" ++
    String.intercalate "\n\n" (gs.goals.enum.map (fun p => goalLine p.1 p.2)) ++
    "\n\nNow I\x27ll create your 5-day action plan."

def actionMsg (title : String) : String :=
  "I\x27ve created \x27" ++ title ++ "\x27 - a complete 5-day action plan. Would you like me to save this to your AI Brain so you can track your progress? (yes/no)"

def saveYesMsg (docId : String) : String :=
  "✅ Saved! Your personalized plan is ready. Check your AI Brain (ID: " ++ docId ++ ") anytime to track progress. I\x27m here whenever you need support!"

def saveNoMsg : String :=
  "No problem! You can always ask me to save it later. Good luck with your social skills journey!"

def saveUnclearMsg : String :=
  "Would you like me to save this plan? (yes/no)"

/-! ## Node functions (app.py lines 1121-1365) -/

/-- `diagnostic_node` (app.py lines 1121-1164): after five questions the
completion branch generates a `DiagnosticInsight` and signals the
transition to `social_analysis`; otherwise it asks the next question and
increments `diagnostic_count`. -/
def diagnostic_node (env : Env) (s : AgentState) :
    Except PyErr (AgentState × List Event) :=
  if s.api_key = "" then .error (.valueError "API key not provided in state")
  else if 5 ≤ s.diagnostic_count then
    match structuredCall env.diagnosticInsightResult DiagnosticInsight.valid with
    | .error e => .error e
    | .ok insight =>
      .ok ({ s with
              diagnostic_insight := some insight,
              current_phase := "social_analysis",
              messages := s.messages ++ [⟨Role.ai, diagCompleteMsg insight.main_challenge⟩] },
           [Event.extracted RecKind.diag])
  else
    match env.diagnosticReply with
    | .error e => .error (.genFailure e)
    | .ok reply =>
      .ok ({ s with
              messages := s.messages ++ [⟨Role.ai, reply⟩],
              diagnostic_count := s.diagnostic_count + 1,
              current_phase := "diagnostic" },
           [])

/-- `social_analysis_node` (app.py lines 1167-1210): after three questions
the completion branch generates a `SocialSkillAnalysis` and signals the
transition to `study_guide_permission`. -/
def social_analysis_node (env : Env) (s : AgentState) :
    Except PyErr (AgentState × List Event) :=
  if s.api_key = "" then .error (.valueError "API key not provided in state")
  else if 3 ≤ s.social_analysis_count then
    match structuredCall env.socialAnalysisResult SocialSkillAnalysis.valid with
    | .error e => .error e
    | .ok analysis =>
      .ok ({ s with
              social_analysis := some analysis,
              current_phase := "study_guide_permission",
              messages := s.messages ++ [⟨Role.ai, socialCompleteMsg analysis.skill_gaps⟩] },
           [Event.extracted RecKind.social])
  else
    match env.socialReply with
    | .error e => .error (.genFailure e)
    | .ok reply =>
      .ok ({ s with
              messages := s.messages ++ [⟨Role.ai, reply⟩],
              social_analysis_count := s.social_analysis_count + 1,
              current_phase := "social_analysis" },
           [])

/-- `study_guide_permission_node` (app.py lines 1213-1252): keyword
matching on the lowercased last message decides between creating the study
guide, skipping it, or asking again.  The affirmative branch reads
`state["social_analysis"].skill_gaps` while building the prompt, which
raises `AttributeError` when that record is `None`. -/
def study_guide_permission_node (env : Env) (s : AgentState) :
    Except PyErr (AgentState × List Event) :=
  match s.messages.getLast? with
  | none => .error .indexError
  | some lastMsg =>
    if s.api_key = "" then .error (.valueError "API key not provided in state")
    else if containsAny (lowerChars lastMsg.content) studyAffirmWords then
      match s.social_analysis with
      | none => .error .attributeError
      | some _ =>
        match structuredCall env.studyGuideResult StudyGuide.valid with
        | .error e => .error e
        | .ok guide =>
          .ok ({ s with
                  study_guide := some guide,
                  save_study_guide := some true,
                  current_phase := "conversation_analysis",
                  messages := s.messages ++ [⟨Role.ai, studyYesMsg guide.guide_title⟩] },
               [])
    else if containsAny (lowerChars lastMsg.content) studyNegWords then
      .ok ({ s with
              save_study_guide := some false,
              current_phase := "conversation_analysis",
              messages := s.messages ++ [⟨Role.ai, studyNoMsg⟩] },
           [])
    else
      .ok ({ s with
              messages := s.messages ++ [⟨Role.ai, studyUnclearMsg⟩],
              current_phase := "study_guide_permission" },
           [])

/-- `conversation_analysis_node` (app.py lines 1255-1277): always generates
a `ConversationInsight` and auto-transitions to `goal_setting`. -/
def conversation_analysis_node (env : Env) (s : AgentState) :
    Except PyErr (AgentState × List Event) :=
  if s.api_key = "" then .error (.valueError "API key not provided in state")
  else
    match structuredCall env.conversationInsightResult ConversationInsight.valid with
    | .error e => .error e
    | .ok insight =>
      .ok ({ s with
              conversation_insight := some insight,
              current_phase := "goal_setting",
              messages := s.messages ++ [⟨Role.ai, convMsg insight⟩] },
           [Event.extracted RecKind.conv])

/-- `goal_setting_node` (app.py lines 1280-1307): generates the `GoalSet`
and auto-transitions to `action_planning`.  The prompt f-string reads
`state["conversation_insight"].recurring_challenge`, raising
`AttributeError` when that record is `None`. -/
def goal_setting_node (env : Env) (s : AgentState) :
    Except PyErr (AgentState × List Event) :=
  if s.api_key = "" then .error (.valueError "API key not provided in state")
  else
    match s.conversation_insight with
    | none => .error .attributeError
    | some _ =>
      match structuredCall env.goalSetResult GoalSet.valid with
      | .error e => .error e
      | .ok gs =>
        .ok ({ s with
                goals := some gs,
                current_phase := "action_planning",
                messages := s.messages ++ [⟨Role.ai, goalsMsg gs⟩] },
             [Event.extracted RecKind.goals])

/-- `action_planning_node` (app.py lines 1310-1332): generates the
`ActionPlan` and signals the transition to `save_permission`.  The prompt
reads `state["goals"].goals`, raising `AttributeError` when `None`. -/
def action_planning_node (env : Env) (s : AgentState) :
    Except PyErr (AgentState × List Event) :=
  if s.api_key = "" then .error (.valueError "API key not provided in state")
  else
    match s.goals with
    | none => .error .attributeError
    | some _ =>
      match structuredCall env.actionPlanResult ActionPlan.valid with
      | .error e => .error e
      | .ok plan =>
        .ok ({ s with
                action_plan := some plan,
                current_phase := "save_permission",
                messages := s.messages ++ [⟨Role.ai, actionMsg plan.plan_title⟩] },
             [Event.extracted RecKind.plan])

/-- `save_permission_node` (app.py lines 1335-1365): keyword matching on
the lowercased last message.  The Firebase save call is commented out in
the source; the affirmative branch unconditionally uses the hard-coded
document id `"mock_doc_id"` and never consults the persistence
collaborator, so `env` is unused. -/
def save_permission_node (env : Env) (s : AgentState) :
    Except PyErr (AgentState × List Event) :=
  match s.messages.getLast? with
  | none => .error .indexError
  | some lastMsg =>
    if containsAny (lowerChars lastMsg.content) saveAffirmWords then
      .ok ({ s with
              save_action_plan := some true,
              aibrain_doc_id := some "mock_doc_id",
              current_phase := "complete",
              messages := s.messages ++ [⟨Role.ai, saveYesMsg "mock_doc_id"⟩] },
           [])
    else if containsAny (lowerChars lastMsg.content) saveNegWords then
      .ok ({ s with
              save_action_plan := some false,
              current_phase := "complete",
              messages := s.messages ++ [⟨Role.ai, saveNoMsg⟩] },
           [])
    else
      .ok ({ s with
              messages := s.messages ++ [⟨Role.ai, saveUnclearMsg⟩],
              current_phase := "save_permission" },
           [])

/-! ## Graph execution (app.py lines 1368-1462, rebuilt per request at
lines 1542-1580)

Each `run_*` function executes its node and then follows the graph's
out-edges: the conditional edges mirror `route_after_diagnostic`,
`route_after_social_analysis` and `route_after_study_permission`; the
edges `conversation_analysis → goal_setting → action_planning →
save_permission` are unconditional; `save_permission` always ends. -/

def run_save (env : Env) (s : AgentState) :
    Except PyErr (AgentState × List Event) :=
  match save_permission_node env s with
  | .error e => .error e
  | .ok (s1, evs) => .ok (s1, Event.entered "save_permission" :: evs)

def run_action (env : Env) (s : AgentState) :
    Except PyErr (AgentState × List Event) :=
  match action_planning_node env s with
  | .error e => .error e
  | .ok (s1, evs) =>
    match run_save env s1 with
    | .error e => .error e
    | .ok (s2, evs2) => .ok (s2, Event.entered "action_planning" :: (evs ++ evs2))

def run_goal (env : Env) (s : AgentState) :
    Except PyErr (AgentState × List Event) :=
  match goal_setting_node env s with
  | .error e => .error e
  | .ok (s1, evs) =>
    match run_action env s1 with
    | .error e => .error e
    | .ok (s2, evs2) => .ok (s2, Event.entered "goal_setting" :: (evs ++ evs2))

def run_conv (env : Env) (s : AgentState) :
    Except PyErr (AgentState × List Event) :=
  match conversation_analysis_node env s with
  | .error e => .error e
  | .ok (s1, evs) =>
    match run_goal env s1 with
    | .error e => .error e
    | .ok (s2, evs2) => .ok (s2, Event.entered "conversation_analysis" :: (evs ++ evs2))

def run_study (env : Env) (s : AgentState) :
    Except PyErr (AgentState × List Event) :=
  match study_guide_permission_node env s with
  | .error e => .error e
  | .ok (s1, evs) =>
    if s1.current_phase = "conversation_analysis" then
      match run_conv env s1 with
      | .error e => .error e
      | .ok (s2, evs2) => .ok (s2, Event.entered "study_guide_permission" :: (evs ++ evs2))
    else
      .ok (s1, Event.entered "study_guide_permission" :: evs)

def run_social (env : Env) (s : AgentState) :
    Except PyErr (AgentState × List Event) :=
  match social_analysis_node env s with
  | .error e => .error e
  | .ok (s1, evs) =>
    if s1.current_phase = "study_guide_permission" then
      match run_study env s1 with
      | .error e => .error e
      | .ok (s2, evs2) => .ok (s2, Event.entered "social_analysis" :: (evs ++ evs2))
    else
      .ok (s1, Event.entered "social_analysis" :: evs)

def run_diag (env : Env) (s : AgentState) :
    Except PyErr (AgentState × List Event) :=
  match diagnostic_node env s with
  | .error e => .error e
  | .ok (s1, evs) =>
    if s1.current_phase = "social_analysis" then
      match run_social env s1 with
      | .error e => .error e
      | .ok (s2, evs2) => .ok (s2, Event.entered "diagnostic" :: (evs ++ evs2))
    else
      .ok (s1, Event.entered "diagnostic" :: evs)

/-- `get_entry_node` (app.py lines 1474-1485): maps the stored phase to the
graph entry node; any phase missing from the table - in particular
`"complete"` - falls through to the default `"diagnostic"`. -/
def get_entry_node (phase : String) : String :=
  if phase = "diagnostic" then "diagnostic"
  else if phase = "social_analysis" then "social_analysis"
  else if phase = "study_guide_permission" then "study_guide_permission"
  else if phase = "conversation_analysis" then "conversation_analysis"
  else if phase = "goal_setting" then "goal_setting"
  else if phase = "action_planning" then "action_planning"
  else if phase = "save_permission" then "save_permission"
  else "diagnostic"

/-- `graph.invoke(state)` with the entry point chosen from the current
phase (app.py lines 1554-1580). -/
def invokeGraph (env : Env) (s : AgentState) :
    Except PyErr (AgentState × List Event) :=
  if get_entry_node s.current_phase = "social_analysis" then run_social env s
  else if get_entry_node s.current_phase = "study_guide_permission" then run_study env s
  else if get_entry_node s.current_phase = "conversation_analysis" then run_conv env s
  else if get_entry_node s.current_phase = "goal_setting" then run_goal env s
  else if get_entry_node s.current_phase = "action_planning" then run_action env s
  else if get_entry_node s.current_phase = "save_permission" then run_save env s
  else run_diag env s

/-! ## The `/agent` endpoint (app.py lines 1488-1615) -/

/-- The in-memory `sessions` table. -/
def Store : Type := String → Option AgentState

def Store.update (st : Store) (k : String) (v : Option AgentState) : Store :=
  fun k2 => if k2 = k then v else st k2

def emptyStore : Store := fun _ => none

/-- A `/agent` request body.  `session_id` is `none` when the key is absent
from the JSON, in which case it defaults to `user_id`; `message` defaults
to the empty string. -/
structure Request where
  user_id : String
  message : String
  session_id : Option String
  api_key : String
  deriving DecidableEq, Repr

/-- The JSON response of `/agent`: a 4xx/5xx error, the new-session
greeting (message, phase, session id), or a turn result (message, phase,
session id, both counters, and - only when the phase is `"complete"` - the
document id and the structured payloads). -/
inductive AgentResult where
  | err (code : Nat) (msg : String)
  | greetingRes (message : String) (phase : String) (session_id : String)
  | turnRes (message : String) (phase : String) (session_id : String)
      (diagnostic_count : Nat) (social_analysis_count : Nat)
      (aibrain_doc_id : Option String) (goals : Option GoalSet)
      (action_plan : Option ActionPlan) (study_guide : Option StudyGuide)
  deriving DecidableEq, Repr

/-- The fresh session state built for an unseen session key
(app.py lines 1504-1521).  The incoming message text is not used. -/
def initState (user_id api_key : String) : AgentState :=
  { messages := [⟨Role.ai, greetingText⟩]
    user_id := user_id
    current_phase := "diagnostic"
    diagnostic_count := 0
    social_analysis_count := 0
    api_key := api_key
    diagnostic_insight := none
    social_analysis := none
    conversation_insight := none
    goals := none
    action_plan := none
    study_guide := none
    save_study_guide := none
    save_action_plan := none
    aibrain_doc_id := none }

/-- Mapping of a raised exception to the endpoint's error response:
`ValueError` is caught as a 400, everything else as a 500
(app.py lines 1582-1587). -/
def errResponse : PyErr → AgentResult
  | .valueError m => .err 400 m
  | .genFailure m => .err 500 ("Processing error: " ++ m)
  | .attributeError => .err 500 "Processing error: attribute error"
  | .indexError => .err 500 "Processing error: index error"

def lastContent (ms : List Message) : String :=
  match ms.getLast? with
  | some m => m.content
  | none => ""

/-- The success response body assembled at app.py lines 1592-1615. -/
def mkTurnResult (sid : String) (s : AgentState) : AgentResult :=
  .turnRes (lastContent s.messages) s.current_phase sid
    s.diagnostic_count s.social_analysis_count
    (if s.current_phase = "complete" then
       match s.aibrain_doc_id with
       | some d => if d = "" then none else some d
       | none => none
     else none)
    (if s.current_phase = "complete" then s.goals else none)
    (if s.current_phase = "complete" then s.action_plan else none)
    (if s.current_phase = "complete" then s.study_guide else none)

/-- The session id a request addresses (`data.get("session_id", user_id)`). -/
def reqSid (req : Request) : String :=
  req.session_id.getD req.user_id

/-- The in-place mutation performed on the stored session before the graph
is invoked (app.py lines 1533-1534): the user message is appended to the
message log and the stored api key is overwritten.  Because `state` aliases
`sessions[session_id]` in the source, this mutation persists even when the
graph invocation then throws. -/
def turnSetup (s : AgentState) (req : Request) : AgentState :=
  { s with messages := s.messages ++ [⟨Role.human, req.message⟩],
           api_key := req.api_key }

/-- One `/agent` request (app.py lines 1488-1615), additionally exposing
the ghost event list of the graph execution (empty when the graph was not
invoked or threw). -/
def agentTurn (env : Env) (store : Store) (req : Request) :
    Store × AgentResult × List Event :=
  if req.user_id = "" then (store, .err 400 "user_id required", [])
  else if req.api_key = "" then (store, .err 400 "api_key required", [])
  else
    match store (reqSid req) with
    | none =>
      (store.update (reqSid req) (some (initState req.user_id req.api_key)),
       .greetingRes greetingText "diagnostic" (reqSid req), [])
    | some s =>
      match invokeGraph env (turnSetup s req) with
      | .error e =>
        (store.update (reqSid req) (some (turnSetup s req)), errResponse e, [])
      | .ok (s2, evs) =>
        ((store.update (reqSid req) (some (turnSetup s req))).update (reqSid req) (some s2),
         mkTurnResult (reqSid req) s2, evs)

/-- `agent_endpoint`: the observable part of one `/agent` request (the
updated session table and the JSON response). -/
def agent_endpoint (env : Env) (store : Store) (req : Request) :
    Store × AgentResult :=
  ((agentTurn env store req).1, (agentTurn env store req).2.1)

/-- `/agent/reset` (app.py lines 1618-1627): deletes the session when
present; always answers with the same success message. -/
def reset_session (store : Store) (session_id : Option String) :
    Store × String :=
  match session_id with
  | some k => (store.update k none, "Session reset successfully")
  | none => (store, "Session reset successfully")

/-! ## Multi-turn execution histories -/

def TurnInput : Type := Env × Request

/-- One history step: apply a turn to the accumulated session table and
append its committed ghost events, tagged with their session id. -/
def turnStep (acc : Store × List (String × Event)) (i : TurnInput) :
    Store × List (String × Event) :=
  ((agentTurn i.1 acc.1 i.2).1,
   acc.2 ++ ((agentTurn i.1 acc.1 i.2).2.2).map (fun e => (reqSid i.2, e)))

/-- Run a sequence of `/agent` turns from the empty session table. -/
def runTurns (inputs : List TurnInput) : Store × List (String × Event) :=
  inputs.foldl turnStep (emptyStore, [])

/-! ## Shared concrete fixtures for counterexamples and witnesses -/

def dInsight0 : DiagnosticInsight := ⟨"fear of rejection", "from conversation", .medium⟩

def sAnalysis0 : SocialSkillAnalysis :=
  ⟨["small talk", "eye contact", "listening"], ["empathy"], "work", .moderate⟩

def sgDay0 (n : Int) : StudyGuideDay := ⟨n, "topic", ["k1", "k2", "k3"], "exercise", ["resource"]⟩

def sGuide0 : StudyGuide := ⟨"The Art of Connection", [sgDay0 1, sgDay0 2, sgDay0 3, sgDay0 4, sgDay0 5]⟩

def cInsight0 : ConversationInsight := ⟨"avoidance", "self-awareness", "practice daily", "ready"⟩

def goal0 (n : String) : SMARTGoal := ⟨n, "s", "m", "a", "r", "t"⟩

def goals0 : GoalSet := ⟨[goal0 "g1", goal0 "g2", goal0 "g3"]⟩

def task0 : DailyTask := ⟨"talk", "talk to someone", 15, .easy, "practice"⟩

def day0 (n : Int) : DayPlan := ⟨n, "theme", [task0, task0], "reflect"⟩

def plan0 : ActionPlan := ⟨"Connection Plan", [day0 1, day0 2, day0 3, day0 4, day0 5], ["metric"]⟩

/-- An environment in which every collaborator call succeeds with a
schema-conforming value. -/
def envAllOk : Env :=
  { diagnosticReply := .ok "What brings you here?"
    diagnosticInsightResult := .ok dInsight0
    socialReply := .ok "Tell me more."
    socialAnalysisResult := .ok sAnalysis0
    studyGuideResult := .ok sGuide0
    conversationInsightResult := .ok cInsight0
    goalSetResult := .ok goals0
    actionPlanResult := .ok plan0
    persistResult := .ok "doc1" }


def dInsightOld : DiagnosticInsight := ⟨"old challenge", "old evidence", .low⟩

/-- A session two diagnostic questions in. -/
def sDiagBase : AgentState :=
  { initState "u" "k" with
    messages := [⟨Role.ai, greetingText⟩, ⟨Role.human, "I struggle with small talk"⟩] }

def sDiag2 : AgentState := { sDiagBase with diagnostic_count := 2 }

def sDiag4 : AgentState := { sDiagBase with diagnostic_count := 4 }

def sDiag5 : AgentState := { sDiagBase with diagnostic_count := 5 }

/-- A session at the social-analysis phase with its three questions asked. -/
def sSoc3 : AgentState :=
  { sDiagBase with
    current_phase := "social_analysis", diagnostic_count := 5,
    social_analysis_count := 3, diagnostic_insight := some dInsight0 }

/-- A skill-gap record with a single entry - outside the spec's claimed
3-to-5 bound. -/
def badAnalysis : SocialSkillAnalysis := ⟨["only one gap"], ["empathy"], "work", .mild⟩

def envBadGaps : Env := { envAllOk with socialAnalysisResult := .ok badAnalysis }

def envFailGen : Env := { envAllOk with diagnosticReply := .error "boom" }

def envPersistFail : Env := { envAllOk with persistResult := .error "Firebase unreachable" }

/-- A session awaiting the save-permission answer, last user message "yes". -/
def sSaveYes : AgentState :=
  { sDiagBase with
    current_phase := "save_permission",
    diagnostic_count := 5, social_analysis_count := 3,
    messages := sDiagBase.messages ++ [⟨Role.ai, actionMsg "Connection Plan"⟩, ⟨Role.human, "yes"⟩],
    diagnostic_insight := some dInsight0, social_analysis := some sAnalysis0,
    conversation_insight := some cInsight0, goals := some goals0,
    action_plan := some plan0, study_guide := some sGuide0, save_study_guide := some true }

/-- Awaiting the study-guide answer; the user refuses with "not yet". -/
def sStudyNotYet : AgentState :=
  { sDiagBase with
    current_phase := "study_guide_permission",
    diagnostic_count := 5, social_analysis_count := 3,
    messages := sDiagBase.messages ++ [⟨Role.human, "not yet"⟩],
    diagnostic_insight := some dInsight0, social_analysis := some sAnalysis0 }

/-- Awaiting the save answer; the user refuses with "definitely not". -/
def sSaveDefNot : AgentState :=
  { sSaveYes with messages := sDiagBase.messages ++ [⟨Role.human, "definitely not"⟩] }

/-- A finished session (phase "complete") receiving one more user message. -/
def sCompleteX : AgentState :=
  { sSaveYes with
    current_phase := "complete",
    messages := sDiagBase.messages ++ [⟨Role.human, "keep going"⟩],
    diagnostic_insight := some dInsightOld,
    save_action_plan := some true, aibrain_doc_id := some "mock_doc_id" }

def store0 : Store := emptyStore.update "u" (some sDiag2)

def req0 : Request := ⟨"u", "hello", none, "k"⟩

def storeD5 : Store := emptyStore.update "u" (some sDiag5)

def reqD : Request := ⟨"u", "ok", none, "k"⟩

def reqNew : Request := ⟨"newuser", "first message", none, "k"⟩

def inputs1 : List TurnInput := [((envAllOk : Env), reqNew)]

/-- History invariant: a session's structured record is set exactly when a
matching extraction event has been committed for that session, and every
committed event belongs to an existing session. -/
def HistInv (store : Store) (evs : List (String × Event)) : Prop :=
  (∀ sid s, store sid = some s →
    ∀ k, (recSet k s = true ↔ (sid, Event.extracted k) ∈ evs))
  ∧ (∀ sid e, (sid, e) ∈ evs → store sid ≠ none)

/-! ## Helper lemmas about one node / one graph execution -/


/-- Facts holding across one successful node application: how the five
structured records relate to the emitted extraction events, monotonicity of
both counters, and strict growth of the message log. -/
def NodeOK (s s' : AgentState) (evs : List Event) : Prop :=
  (∀ k, recSet k s' = true ↔ (recSet k s = true ∨ Event.extracted k ∈ evs))
  ∧ s.diagnostic_count ≤ s'.diagnostic_count
  ∧ s.social_analysis_count ≤ s'.social_analysis_count
  ∧ s.messages.length < s'.messages.length

/-- `NodeOK` plus: a run that ends in phase `"complete"` entered the
`save_permission` node. -/
def RunOK (s s' : AgentState) (evs : List Event) : Prop :=
  NodeOK s s' evs
  ∧ (s'.current_phase = "complete" → Event.entered "save_permission" ∈ evs)

theorem recSet_turn_setup (s : AgentState) (m : Message) (ak : String) (k : RecKind) :
    recSet k { s with messages := s.messages ++ [m], api_key := ak } = recSet k s := by
  cases k <;> rfl

theorem diagnostic_node_nodeOK {env : Env} {s s' : AgentState} {evs : List Event}
    (h : diagnostic_node env s = .ok (s', evs)) : NodeOK s s' evs := by
  unfold diagnostic_node at h
  split at h
  · simp at h
  · split at h
    · split at h
      · simp at h
      · simp only [Except.ok.injEq, Prod.mk.injEq] at h
        obtain ⟨h1, h2⟩ := h
        subst h1; subst h2
        refine ⟨fun k => ?_, le_refl _, le_refl _, by simp⟩
        cases k <;> simp [recSet]
    · split at h
      · simp at h
      · simp only [Except.ok.injEq, Prod.mk.injEq] at h
        obtain ⟨h1, h2⟩ := h
        subst h1; subst h2
        refine ⟨fun k => ?_, Nat.le_succ _, le_refl _, by simp⟩
        cases k <;> simp [recSet]

theorem diagnostic_node_phase {env : Env} {s s' : AgentState} {evs : List Event}
    (h : diagnostic_node env s = .ok (s', evs)) :
    s'.current_phase = "social_analysis" ∨ s'.current_phase = "diagnostic" := by
  unfold diagnostic_node at h
  split at h
  · simp at h
  · split at h
    · split at h
      · simp at h
      · simp only [Except.ok.injEq, Prod.mk.injEq] at h
        obtain ⟨h1, _⟩ := h
        subst h1; left; rfl
    · split at h
      · simp at h
      · simp only [Except.ok.injEq, Prod.mk.injEq] at h
        obtain ⟨h1, _⟩ := h
        subst h1; right; rfl

theorem social_analysis_node_nodeOK {env : Env} {s s' : AgentState} {evs : List Event}
    (h : social_analysis_node env s = .ok (s', evs)) : NodeOK s s' evs := by
  unfold social_analysis_node at h
  split at h
  · simp at h
  · split at h
    · split at h
      · simp at h
      · simp only [Except.ok.injEq, Prod.mk.injEq] at h
        obtain ⟨h1, h2⟩ := h
        subst h1; subst h2
        refine ⟨fun k => ?_, le_refl _, le_refl _, by simp⟩
        cases k <;> simp [recSet]
    · split at h
      · simp at h
      · simp only [Except.ok.injEq, Prod.mk.injEq] at h
        obtain ⟨h1, h2⟩ := h
        subst h1; subst h2
        refine ⟨fun k => ?_, le_refl _, Nat.le_succ _, by simp⟩
        cases k <;> simp [recSet]

theorem social_analysis_node_phase {env : Env} {s s' : AgentState} {evs : List Event}
    (h : social_analysis_node env s = .ok (s', evs)) :
    s'.current_phase = "study_guide_permission" ∨ s'.current_phase = "social_analysis" := by
  unfold social_analysis_node at h
  split at h
  · simp at h
  · split at h
    · split at h
      · simp at h
      · simp only [Except.ok.injEq, Prod.mk.injEq] at h
        obtain ⟨h1, _⟩ := h
        subst h1; left; rfl
    · split at h
      · simp at h
      · simp only [Except.ok.injEq, Prod.mk.injEq] at h
        obtain ⟨h1, _⟩ := h
        subst h1; right; rfl

theorem study_guide_permission_node_nodeOK {env : Env} {s s' : AgentState} {evs : List Event}
    (h : study_guide_permission_node env s = .ok (s', evs)) : NodeOK s s' evs := by
  unfold study_guide_permission_node at h
  split at h
  · simp at h
  · split at h
    · simp at h
    · split at h
      · split at h
        · simp at h
        · split at h
          · simp at h
          · simp only [Except.ok.injEq, Prod.mk.injEq] at h
            obtain ⟨h1, h2⟩ := h
            subst h1; subst h2
            refine ⟨fun k => ?_, le_refl _, le_refl _, by simp⟩
            cases k <;> simp [recSet]
      · split at h
        · simp only [Except.ok.injEq, Prod.mk.injEq] at h
          obtain ⟨h1, h2⟩ := h
          subst h1; subst h2
          refine ⟨fun k => ?_, le_refl _, le_refl _, by simp⟩
          cases k <;> simp [recSet]
        · simp only [Except.ok.injEq, Prod.mk.injEq] at h
          obtain ⟨h1, h2⟩ := h
          subst h1; subst h2
          refine ⟨fun k => ?_, le_refl _, le_refl _, by simp⟩
          cases k <;> simp [recSet]

theorem study_guide_permission_node_phase {env : Env} {s s' : AgentState} {evs : List Event}
    (h : study_guide_permission_node env s = .ok (s', evs)) :
    s'.current_phase = "conversation_analysis" ∨ s'.current_phase = "study_guide_permission" := by
  unfold study_guide_permission_node at h
  split at h
  · simp at h
  · split at h
    · simp at h
    · split at h
      · split at h
        · simp at h
        · split at h
          · simp at h
          · simp only [Except.ok.injEq, Prod.mk.injEq] at h
            obtain ⟨h1, _⟩ := h
            subst h1; left; rfl
      · split at h
        · simp only [Except.ok.injEq, Prod.mk.injEq] at h
          obtain ⟨h1, _⟩ := h
          subst h1; left; rfl
        · simp only [Except.ok.injEq, Prod.mk.injEq] at h
          obtain ⟨h1, _⟩ := h
          subst h1; right; rfl

theorem conversation_analysis_node_nodeOK {env : Env} {s s' : AgentState} {evs : List Event}
    (h : conversation_analysis_node env s = .ok (s', evs)) : NodeOK s s' evs := by
  unfold conversation_analysis_node at h
  split at h
  · simp at h
  · split at h
    · simp at h
    · simp only [Except.ok.injEq, Prod.mk.injEq] at h
      obtain ⟨h1, h2⟩ := h
      subst h1; subst h2
      refine ⟨fun k => ?_, le_refl _, le_refl _, by simp⟩
      cases k <;> simp [recSet]

theorem conversation_analysis_node_phase {env : Env} {s s' : AgentState} {evs : List Event}
    (h : conversation_analysis_node env s = .ok (s', evs)) :
    s'.current_phase = "goal_setting" := by
  unfold conversation_analysis_node at h
  split at h
  · simp at h
  · split at h
    · simp at h
    · simp only [Except.ok.injEq, Prod.mk.injEq] at h
      obtain ⟨h1, _⟩ := h
      subst h1; rfl

theorem goal_setting_node_nodeOK {env : Env} {s s' : AgentState} {evs : List Event}
    (h : goal_setting_node env s = .ok (s', evs)) : NodeOK s s' evs := by
  unfold goal_setting_node at h
  split at h
  · simp at h
  · split at h
    · simp at h
    · split at h
      · simp at h
      · simp only [Except.ok.injEq, Prod.mk.injEq] at h
        obtain ⟨h1, h2⟩ := h
        subst h1; subst h2
        refine ⟨fun k => ?_, le_refl _, le_refl _, by simp⟩
        cases k <;> simp [recSet]

theorem goal_setting_node_phase {env : Env} {s s' : AgentState} {evs : List Event}
    (h : goal_setting_node env s = .ok (s', evs)) :
    s'.current_phase = "action_planning" := by
  unfold goal_setting_node at h
  split at h
  · simp at h
  · split at h
    · simp at h
    · split at h
      · simp at h
      · simp only [Except.ok.injEq, Prod.mk.injEq] at h
        obtain ⟨h1, _⟩ := h
        subst h1; rfl

theorem action_planning_node_nodeOK {env : Env} {s s' : AgentState} {evs : List Event}
    (h : action_planning_node env s = .ok (s', evs)) : NodeOK s s' evs := by
  unfold action_planning_node at h
  split at h
  · simp at h
  · split at h
    · simp at h
    · split at h
      · simp at h
      · simp only [Except.ok.injEq, Prod.mk.injEq] at h
        obtain ⟨h1, h2⟩ := h
        subst h1; subst h2
        refine ⟨fun k => ?_, le_refl _, le_refl _, by simp⟩
        cases k <;> simp [recSet]

theorem action_planning_node_phase {env : Env} {s s' : AgentState} {evs : List Event}
    (h : action_planning_node env s = .ok (s', evs)) :
    s'.current_phase = "save_permission" := by
  unfold action_planning_node at h
  split at h
  · simp at h
  · split at h
    · simp at h
    · split at h
      · simp at h
      · simp only [Except.ok.injEq, Prod.mk.injEq] at h
        obtain ⟨h1, _⟩ := h
        subst h1; rfl

theorem save_permission_node_nodeOK {env : Env} {s s' : AgentState} {evs : List Event}
    (h : save_permission_node env s = .ok (s', evs)) : NodeOK s s' evs := by
  unfold save_permission_node at h
  split at h
  · simp at h
  · split at h
    · simp only [Except.ok.injEq, Prod.mk.injEq] at h
      obtain ⟨h1, h2⟩ := h
      subst h1; subst h2
      refine ⟨fun k => ?_, le_refl _, le_refl _, by simp⟩
      cases k <;> simp [recSet]
    · split at h
      · simp only [Except.ok.injEq, Prod.mk.injEq] at h
        obtain ⟨h1, h2⟩ := h
        subst h1; subst h2
        refine ⟨fun k => ?_, le_refl _, le_refl _, by simp⟩
        cases k <;> simp [recSet]
      · simp only [Except.ok.injEq, Prod.mk.injEq] at h
        obtain ⟨h1, h2⟩ := h
        subst h1; subst h2
        refine ⟨fun k => ?_, le_refl _, le_refl _, by simp⟩
        cases k <;> simp [recSet]

theorem extracted_mem_entered_cons {k : RecKind} {n : String} {evs : List Event} :
    Event.extracted k ∈ Event.entered n :: evs ↔ Event.extracted k ∈ evs := by
  simp

theorem NodeOK.comp_run {s s1 s2 : AgentState} {evs1 evs2 : List Event} {n : String}
    (h1 : NodeOK s s1 evs1) (h2 : RunOK s1 s2 evs2) :
    RunOK s s2 (Event.entered n :: (evs1 ++ evs2)) := by
  obtain ⟨hr1, hd1, hs1, hm1⟩ := h1
  obtain ⟨⟨hr2, hd2, hs2, hm2⟩, hc2⟩ := h2
  refine ⟨⟨fun k => ?_, le_trans hd1 hd2, le_trans hs1 hs2, lt_trans hm1 hm2⟩, fun hc => ?_⟩
  · rw [hr2 k, hr1 k]
    simp [or_assoc]
  · have := hc2 hc
    simp [this]

theorem NodeOK.end_run {s s1 : AgentState} {evs1 : List Event} {n : String}
    (h1 : NodeOK s s1 evs1) (hp : s1.current_phase ≠ "complete") :
    RunOK s s1 (Event.entered n :: evs1) := by
  obtain ⟨hr1, hd1, hs1, hm1⟩ := h1
  refine ⟨⟨fun k => ?_, hd1, hs1, hm1⟩, fun hc => absurd hc hp⟩
  rw [extracted_mem_entered_cons, hr1 k]

theorem run_save_runOK {env : Env} {s s' : AgentState} {evs : List Event}
    (h : run_save env s = .ok (s', evs)) : RunOK s s' evs := by
  unfold run_save at h
  split at h
  · simp at h
  · rename_i s1 evs1 heq
    simp only [Except.ok.injEq, Prod.mk.injEq] at h
    obtain ⟨h1, h2⟩ := h
    subst h1; subst h2
    have hn := save_permission_node_nodeOK heq
    obtain ⟨hr1, hd1, hs1, hm1⟩ := hn
    refine ⟨⟨fun k => ?_, hd1, hs1, hm1⟩, fun _ => ?_⟩
    · rw [extracted_mem_entered_cons, hr1 k]
    · simp

theorem run_action_runOK {env : Env} {s s' : AgentState} {evs : List Event}
    (h : run_action env s = .ok (s', evs)) : RunOK s s' evs := by
  unfold run_action at h
  split at h
  · simp at h
  · rename_i s1 evs1 heq
    split at h
    · simp at h
    · rename_i s2 evs2 heq2
      simp only [Except.ok.injEq, Prod.mk.injEq] at h
      obtain ⟨h1, h2⟩ := h
      subst h1; subst h2
      exact (action_planning_node_nodeOK heq).comp_run (run_save_runOK heq2)

theorem run_goal_runOK {env : Env} {s s' : AgentState} {evs : List Event}
    (h : run_goal env s = .ok (s', evs)) : RunOK s s' evs := by
  unfold run_goal at h
  split at h
  · simp at h
  · rename_i s1 evs1 heq
    split at h
    · simp at h
    · rename_i s2 evs2 heq2
      simp only [Except.ok.injEq, Prod.mk.injEq] at h
      obtain ⟨h1, h2⟩ := h
      subst h1; subst h2
      exact (goal_setting_node_nodeOK heq).comp_run (run_action_runOK heq2)

theorem run_conv_runOK {env : Env} {s s' : AgentState} {evs : List Event}
    (h : run_conv env s = .ok (s', evs)) : RunOK s s' evs := by
  unfold run_conv at h
  split at h
  · simp at h
  · rename_i s1 evs1 heq
    split at h
    · simp at h
    · rename_i s2 evs2 heq2
      simp only [Except.ok.injEq, Prod.mk.injEq] at h
      obtain ⟨h1, h2⟩ := h
      subst h1; subst h2
      exact (conversation_analysis_node_nodeOK heq).comp_run (run_goal_runOK heq2)

theorem run_study_runOK {env : Env} {s s' : AgentState} {evs : List Event}
    (h : run_study env s = .ok (s', evs)) : RunOK s s' evs := by
  unfold run_study at h
  split at h
  · simp at h
  · rename_i s1 evs1 heq
    split at h
    · split at h
      · simp at h
      · rename_i s2 evs2 heq2
        simp only [Except.ok.injEq, Prod.mk.injEq] at h
        obtain ⟨h1, h2⟩ := h
        subst h1; subst h2
        exact (study_guide_permission_node_nodeOK heq).comp_run (run_conv_runOK heq2)
    · rename_i hne
      simp only [Except.ok.injEq, Prod.mk.injEq] at h
      obtain ⟨h1, h2⟩ := h
      subst h1; subst h2
      refine (study_guide_permission_node_nodeOK heq).end_run ?_
      rcases study_guide_permission_node_phase heq with hp | hp
      · exact absurd hp hne
      · rw [hp]; decide

theorem run_social_runOK {env : Env} {s s' : AgentState} {evs : List Event}
    (h : run_social env s = .ok (s', evs)) : RunOK s s' evs := by
  unfold run_social at h
  split at h
  · simp at h
  · rename_i s1 evs1 heq
    split at h
    · split at h
      · simp at h
      · rename_i s2 evs2 heq2
        simp only [Except.ok.injEq, Prod.mk.injEq] at h
        obtain ⟨h1, h2⟩ := h
        subst h1; subst h2
        exact (social_analysis_node_nodeOK heq).comp_run (run_study_runOK heq2)
    · rename_i hne
      simp only [Except.ok.injEq, Prod.mk.injEq] at h
      obtain ⟨h1, h2⟩ := h
      subst h1; subst h2
      refine (social_analysis_node_nodeOK heq).end_run ?_
      rcases social_analysis_node_phase heq with hp | hp
      · exact absurd hp hne
      · rw [hp]; decide

theorem run_diag_runOK {env : Env} {s s' : AgentState} {evs : List Event}
    (h : run_diag env s = .ok (s', evs)) : RunOK s s' evs := by
  unfold run_diag at h
  split at h
  · simp at h
  · rename_i s1 evs1 heq
    split at h
    · split at h
      · simp at h
      · rename_i s2 evs2 heq2
        simp only [Except.ok.injEq, Prod.mk.injEq] at h
        obtain ⟨h1, h2⟩ := h
        subst h1; subst h2
        exact (diagnostic_node_nodeOK heq).comp_run (run_social_runOK heq2)
    · rename_i hne
      simp only [Except.ok.injEq, Prod.mk.injEq] at h
      obtain ⟨h1, h2⟩ := h
      subst h1; subst h2
      refine (diagnostic_node_nodeOK heq).end_run ?_
      rcases diagnostic_node_phase heq with hp | hp
      · exact absurd hp hne
      · rw [hp]; decide

theorem invokeGraph_runOK {env : Env} {s s' : AgentState} {evs : List Event}
    (h : invokeGraph env s = .ok (s', evs)) : RunOK s s' evs := by
  unfold invokeGraph at h
  split at h
  · exact run_social_runOK h
  · split at h
    · exact run_study_runOK h
    · split at h
      · exact run_conv_runOK h
      · split at h
        · exact run_goal_runOK h
        · split at h
          · exact run_action_runOK h
          · split at h
            · exact run_save_runOK h
            · exact run_diag_runOK h

/-! ## Helper lemmas about graph entry and history invariants -/

theorem Store.update_self (st : Store) (k : String) (v : Option AgentState) :
    st.update k v k = v := by
  simp [Store.update]

theorem Store.update_other (st : Store) (k : String) (v : Option AgentState)
    (k2 : String) (h : k2 ≠ k) : st.update k v k2 = st k2 := by
  simp [Store.update, h]

theorem run_diag_entered {env : Env} {s s' : AgentState} {evs : List Event}
    (h : run_diag env s = .ok (s', evs)) : Event.entered "diagnostic" ∈ evs := by
  unfold run_diag at h
  split at h
  · simp at h
  · split at h
    · split at h
      · simp at h
      · simp only [Except.ok.injEq, Prod.mk.injEq] at h
        obtain ⟨_, h2⟩ := h
        subst h2; simp
    · simp only [Except.ok.injEq, Prod.mk.injEq] at h
      obtain ⟨_, h2⟩ := h
      subst h2; simp

theorem invokeGraph_complete_entry {env : Env} {s s' : AgentState} {evs : List Event}
    (hc : s.current_phase = "complete")
    (h : invokeGraph env s = .ok (s', evs)) : Event.entered "diagnostic" ∈ evs := by
  unfold invokeGraph at h
  rw [hc] at h
  have he : get_entry_node "complete" = "diagnostic" := by decide
  rw [he] at h
  rw [if_neg (by decide), if_neg (by decide), if_neg (by decide), if_neg (by decide),
      if_neg (by decide), if_neg (by decide)] at h
  exact run_diag_entered h

theorem recSet_turnSetup (s : AgentState) (req : Request) (k : RecKind) :
    recSet k (turnSetup s req) = recSet k s := by
  cases k <;> rfl

theorem mem_map_pair {a b : String} {e : Event} {l : List Event} :
    (a, e) ∈ l.map (fun x => (b, x)) ↔ a = b ∧ e ∈ l := by
  simp only [List.mem_map, Prod.mk.injEq]
  constructor
  · rintro ⟨x, hx, hb, he⟩
    exact ⟨hb.symm, he ▸ hx⟩
  · rintro ⟨rfl, he⟩
    exact ⟨e, he, rfl, rfl⟩

theorem HistInv_empty : HistInv emptyStore [] := by
  constructor
  · intro sid s h
    simp [emptyStore] at h
  · intro sid e h
    simp at h

theorem turn_step_inv {store : Store} {evs : List (String × Event)} (i : TurnInput)
    (h : HistInv store evs) : HistInv (turnStep (store, evs) i).1 (turnStep (store, evs) i).2 := by
  obtain ⟨hrec, hex⟩ := h
  unfold turnStep agentTurn
  by_cases h1 : i.2.user_id = ""
  · rw [if_pos h1]
    simpa using ⟨hrec, hex⟩
  · rw [if_neg h1]
    by_cases h2 : i.2.api_key = ""
    · rw [if_pos h2]
      simpa using ⟨hrec, hex⟩
    · rw [if_neg h2]
      cases hs : store (reqSid i.2) with
      | none =>
        simp only [hs, List.map_nil, List.append_nil]
        constructor
        · intro sid2 s2 hval k
          by_cases hsid : sid2 = reqSid i.2
          · subst hsid
            rw [Store.update_self] at hval
            obtain rfl : initState i.2.user_id i.2.api_key = s2 := by
              injection hval
            constructor
            · intro hfalse
              cases k <;> simp [recSet, initState] at hfalse
            · intro hmem
              exact absurd hs (hex _ _ hmem)
          · rw [Store.update_other _ _ _ _ hsid] at hval
            exact hrec _ _ hval k
        · intro sid2 e hmem
          by_cases hsid : sid2 = reqSid i.2
          · subst hsid
            rw [Store.update_self]
            simp
          · rw [Store.update_other _ _ _ _ hsid]
            exact hex _ _ hmem
      | some s =>
        cases hi : invokeGraph i.1 (turnSetup s i.2) with
        | error e =>
          simp only [hs, hi, List.map_nil, List.append_nil]
          constructor
          · intro sid2 s2 hval k
            by_cases hsid : sid2 = reqSid i.2
            · subst hsid
              rw [Store.update_self] at hval
              obtain rfl : turnSetup s i.2 = s2 := by injection hval
              rw [recSet_turnSetup]
              exact hrec _ _ hs k
            · rw [Store.update_other _ _ _ _ hsid] at hval
              exact hrec _ _ hval k
          · intro sid2 e2 hmem
            by_cases hsid : sid2 = reqSid i.2
            · subst hsid
              rw [Store.update_self]
              simp
            · rw [Store.update_other _ _ _ _ hsid]
              exact hex _ _ hmem
        | ok out =>
          obtain ⟨s2, evsT⟩ := out
          simp only [hs, hi]
          have hrun := invokeGraph_runOK hi
          obtain ⟨⟨hriff, _, _, _⟩, _⟩ := hrun
          constructor
          · intro sid2 s3 hval k
            by_cases hsid : sid2 = reqSid i.2
            · subst hsid
              rw [Store.update_self] at hval
              obtain rfl : s2 = s3 := by injection hval
              rw [hriff k, recSet_turnSetup]
              rw [hrec _ _ hs k]
              simp only [List.mem_append, mem_map_pair]
              tauto
            · rw [Store.update_other _ _ _ _ hsid,
                  Store.update_other _ _ _ _ hsid] at hval
              rw [hrec _ _ hval k]
              simp only [List.mem_append, mem_map_pair]
              have : ¬(sid2 = reqSid i.2 ∧ Event.extracted k ∈ evsT) := by
                intro ⟨hc, _⟩; exact hsid hc
              tauto
          · intro sid2 e2 hmem
            by_cases hsid : sid2 = reqSid i.2
            · subst hsid
              rw [Store.update_self]
              simp
            · rw [Store.update_other _ _ _ _ hsid,
                  Store.update_other _ _ _ _ hsid]
              simp only [List.mem_append, mem_map_pair] at hmem
              rcases hmem with hmem | ⟨hc, _⟩
              · exact hex _ _ hmem
              · exact absurd hc hsid

theorem runTurns_inv (inputs : List TurnInput) :
    HistInv (runTurns inputs).1 (runTurns inputs).2 := by
  unfold runTurns
  suffices hgen : ∀ acc : Store × List (String × Event), HistInv acc.1 acc.2 →
      HistInv (inputs.foldl turnStep acc).1 (inputs.foldl turnStep acc).2 by
    exact hgen (emptyStore, []) HistInv_empty
  induction inputs with
  | nil => intro acc h; simpa using h
  | cons i rest ih =>
    intro acc h
    rw [List.foldl_cons]
    exact ih (turnStep acc i) (by
      obtain ⟨st, ev⟩ := acc
      exact turn_step_inv i h)

/-! ## Support lemmas for the claim theorems -/

theorem structuredCall_ok_valid {α : Type} {r : Except String α} {v : α → Bool} {x : α}
    (h : structuredCall r v = .ok x) : v x = true := by
  unfold structuredCall at h
  split at h
  · simp at h
  · split at h
    · rename_i hval
      injection h with h
      subst h
      exact hval
    · simp at h

theorem isSub_singleton (c : Char) (l : List Char) : isSub [c] l = true ↔ c ∈ l := by
  induction l with
  | nil => simp [isSub]
  | cons a t ih =>
    have hred : List.isPrefixOf [c] (a :: t) = (c == a) := by
      simp [List.isPrefixOf]
    unfold isSub
    rw [hred]
    simp [ih, List.mem_cons]

/-! ## Claim C3 -/

/-- Claim C3 counterexample.  The claim says the completion decision is a
pure set-containment check over a `completedCheckpoints` map of the
checkpoint-progress state.  The session state embedded from the source
contains no such map at all: here are two states that agree on the entire
conversation record (messages, stored records, phase) and differ only in
the `diagnostic_count` counter, yet the diagnostic node's completion
decision differs - the decision is a counter threshold, not any function
of completed checkpoint fields. -/
theorem C3_counterexample :
    sDiag4.current_phase = sDiag5.current_phase
    ∧ sDiag4.messages = sDiag5.messages
    ∧ sDiag4.diagnostic_insight = sDiag5.diagnostic_insight
    ∧ sDiag4.social_analysis = sDiag5.social_analysis
    ∧ sDiag4.diagnostic_count = 4 ∧ sDiag5.diagnostic_count = 5
    ∧ (diagnostic_node envAllOk sDiag4).toOption.map
        (fun o => (o.1.current_phase, o.1.diagnostic_insight.isSome))
        = some ("diagnostic", false)
    ∧ (diagnostic_node envAllOk sDiag5).toOption.map
        (fun o => (o.1.current_phase, o.1.diagnostic_insight.isSome))
        = some ("social_analysis", true) := by
  decide

/-- Claim C3, amended: the completion decision of each questioning phase is
a turn-counter threshold - the diagnostic node completes (transitions and
extracts its record) exactly when `diagnostic_count ≥ 5`, and the
social-analysis node exactly when `social_analysis_count ≥ 3`; the session
state carries no `completedCheckpoints` map. -/
theorem C3_amended_completion_is_counter_threshold :
    (∀ (env : Env) (s : AgentState) (out : AgentState × List Event),
      diagnostic_node env s = .ok out →
        ((out.1.current_phase = "social_analysis" ↔ 5 ≤ s.diagnostic_count)
         ∧ (out.1.diagnostic_insight.isSome = true ↔
             (s.diagnostic_insight.isSome = true ∨ 5 ≤ s.diagnostic_count))))
    ∧ (∀ (env : Env) (s : AgentState) (out : AgentState × List Event),
      social_analysis_node env s = .ok out →
        ((out.1.current_phase = "study_guide_permission" ↔ 3 ≤ s.social_analysis_count)
         ∧ (out.1.social_analysis.isSome = true ↔
             (s.social_analysis.isSome = true ∨ 3 ≤ s.social_analysis_count)))) := by
  constructor
  · intro env s out h
    unfold diagnostic_node at h
    split at h
    · simp at h
    · split at h
      · rename_i hcount
        split at h
        · simp at h
        · injection h with h
          subst h
          exact ⟨⟨fun _ => hcount, fun _ => rfl⟩, by simp [hcount]⟩
      · rename_i hcount
        split at h
        · simp at h
        · injection h with h
          subst h
          refine ⟨⟨fun hph => ((by decide : ("diagnostic" : String) ≠ "social_analysis") hph).elim,
                   fun hc => absurd hc hcount⟩, ?_⟩
          simp [hcount]
  · intro env s out h
    unfold social_analysis_node at h
    split at h
    · simp at h
    · split at h
      · rename_i hcount
        split at h
        · simp at h
        · injection h with h
          subst h
          exact ⟨⟨fun _ => hcount, fun _ => rfl⟩, by simp [hcount]⟩
      · rename_i hcount
        split at h
        · simp at h
        · injection h with h
          subst h
          refine ⟨⟨fun hph => ((by decide : ("social_analysis" : String) ≠ "study_guide_permission") hph).elim,
                   fun hc => absurd hc hcount⟩, ?_⟩
          simp [hcount]

/-- Witness for the amended C3 theorem at a concrete input. -/
theorem C3_amended_witness :
    ((diagnostic_node envAllOk sDiag5).toOption.getD (initState "u" "k", [])).1.current_phase
      = "social_analysis" := by
  have h : diagnostic_node envAllOk sDiag5 =
      .ok ((diagnostic_node envAllOk sDiag5).toOption.getD (initState "u" "k", [])) := by
    decide
  exact (C3_amended_completion_is_counter_threshold.1 envAllOk sDiag5 _ h).1.mpr (by decide)

/-! ## Claim C4 -/

/-- Claim C4 counterexample.  The claim says a transition at the last phase
attempts finalization first and, on persistence failure, returns an error
and leaves the phase unchanged.  In the code the Firebase save is commented
out: with the persistence collaborator unreachable, the save-permission
node still returns no error, commits phase "complete", and reports the
hard-coded document id "mock_doc_id". -/
theorem C4_counterexample :
    envPersistFail.persistResult = .error "Firebase unreachable"
    ∧ sSaveYes.current_phase = "save_permission"
    ∧ (save_permission_node envPersistFail sSaveYes).toOption.map
        (fun o => (o.1.current_phase, o.1.aibrain_doc_id, o.1.save_action_plan))
        = some ("complete", some "mock_doc_id", some true) := by
  decide

/-- Claim C4, amended: on an affirmative save answer the node
unconditionally - for every collaborator environment, in particular every
persistence outcome - marks the session complete, stores the fixed document
id "mock_doc_id", and appends the saved-confirmation message; no
finalization attempt and no failure path exist. -/
theorem C4_amended_save_ignores_persistence :
    ∀ (env : Env) (s : AgentState) (m : Message),
      s.messages.getLast? = some m →
      containsAny (lowerChars m.content) saveAffirmWords = true →
      save_permission_node env s =
        .ok ({ s with
                save_action_plan := some true,
                aibrain_doc_id := some "mock_doc_id",
                current_phase := "complete",
                messages := s.messages ++ [⟨Role.ai, saveYesMsg "mock_doc_id"⟩] },
             []) := by
  intro env s m hlast hcond
  unfold save_permission_node
  simp only [hlast]
  rw [if_pos hcond]

/-- Witness for the amended C4 theorem at a concrete input with a failing
persistence collaborator. -/
theorem C4_amended_witness :
    save_permission_node envPersistFail sSaveYes =
      .ok ({ sSaveYes with
              save_action_plan := some true,
              aibrain_doc_id := some "mock_doc_id",
              current_phase := "complete",
              messages := sSaveYes.messages ++ [⟨Role.ai, saveYesMsg "mock_doc_id"⟩] },
           []) :=
  C4_amended_save_ignores_persistence envPersistFail sSaveYes ⟨Role.human, "yes"⟩
    (by decide) (by decide)

/-! ## Claim C5 -/

/-- Claim C5 counterexample.  The claim says the skill-gap assessment
record must contain between 3 and 5 skill-gap entries and that violating
values are rejected.  `SocialSkillAnalysis` declares no bound on
`skill_gaps`: a generated record with a single entry passes validation and
is stored. -/
theorem C5_counterexample :
    badAnalysis.skill_gaps.length = 1
    ∧ SocialSkillAnalysis.valid badAnalysis = true
    ∧ (social_analysis_node envBadGaps sSoc3).toOption.map (fun o => o.1.social_analysis)
        = some (some badAnalysis) := by
  decide

/-- Claim C5, amended: the action-plan schema bounds hold as claimed - any
stored action plan has exactly 5 day-plans, each with 2 or 3 tasks, and a
generated plan violating the schema is rejected rather than stored - but
the skill-gap record's `skill_gaps` list is unbounded: every
`SocialSkillAnalysis` value passes validation regardless of length. -/
theorem C5_amended_plan_bounded_skill_gaps_unbounded :
    (∀ (env : Env) (s : AgentState) (out : AgentState × List Event),
      action_planning_node env s = .ok out →
      ∃ p, out.1.action_plan = some p ∧ p.days.length = 5
           ∧ ∀ d ∈ p.days, 2 ≤ d.tasks.length ∧ d.tasks.length ≤ 3)
    ∧ (∀ (env : Env) (s : AgentState) (p : ActionPlan),
      env.actionPlanResult = .ok p → ActionPlan.valid p = false →
      ∃ e, action_planning_node env s = .error e)
    ∧ (∀ a : SocialSkillAnalysis, SocialSkillAnalysis.valid a = true) := by
  refine ⟨?_, ?_, ?_⟩
  · intro env s out h
    unfold action_planning_node at h
    split at h
    · simp at h
    · split at h
      · simp at h
      · split at h
        · simp at h
        · rename_i plan heq2
          injection h with h
          subst h
          have hv := structuredCall_ok_valid heq2
          simp only [ActionPlan.valid, Bool.and_eq_true, beq_iff_eq,
            List.all_eq_true, DayPlan.valid, decide_eq_true_eq] at hv
          exact ⟨plan, rfl, hv.1, hv.2⟩
  · intro env s p hp hvalid
    unfold action_planning_node
    split
    · exact ⟨_, rfl⟩
    · split
      · exact ⟨_, rfl⟩
      · rw [show structuredCall env.actionPlanResult ActionPlan.valid =
              .error (.genFailure "schema validation failed") by
            simp [structuredCall, hp, hvalid]]
        exact ⟨_, rfl⟩
  · intro a
    rfl

/-- Witness for the amended C5 theorem at a concrete input. -/
theorem C5_amended_witness :
    (∃ p, ((action_planning_node envAllOk sSaveYes).toOption.getD
            (initState "u" "k", [])).1.action_plan = some p
          ∧ p.days.length = 5
          ∧ ∀ d ∈ p.days, 2 ≤ d.tasks.length ∧ d.tasks.length ≤ 3)
    ∧ SocialSkillAnalysis.valid badAnalysis = true := by
  constructor
  · have h : action_planning_node envAllOk sSaveYes =
        .ok ((action_planning_node envAllOk sSaveYes).toOption.getD (initState "u" "k", [])) := by
      decide
    exact C5_amended_plan_bounded_skill_gaps_unbounded.1 envAllOk sSaveYes _ h
  · exact C5_amended_plan_bounded_skill_gaps_unbounded.2.2 badAnalysis

/-! ## Claim C9 -/

/-- Claim C9: in both permission nodes the affirmative branch fires
whenever the lowercased last message contains the letter y anywhere as a
substring (the keyword "y" is matched by substring containment), so
refusals such as "not yet" or "definitely not" trigger study-guide
creation and plan saving; the negative branch is reachable only for
messages with no y at all. -/
theorem C9_y_substring_triggers_affirmative :
    (∀ m : String, 'y' ∈ lowerChars m →
       containsAny (lowerChars m) studyAffirmWords = true
       ∧ containsAny (lowerChars m) saveAffirmWords = true)
    ∧ (∀ m : String, containsAny (lowerChars m) studyAffirmWords = false →
       'y' ∉ lowerChars m)
    ∧ (∀ m : String, containsAny (lowerChars m) saveAffirmWords = false →
       'y' ∉ lowerChars m)
    ∧ (study_guide_permission_node envAllOk sStudyNotYet).toOption.map
        (fun o => (o.1.study_guide.isSome, o.1.save_study_guide, o.1.current_phase))
        = some (true, some true, "conversation_analysis")
    ∧ (save_permission_node envAllOk sSaveDefNot).toOption.map
        (fun o => (o.1.save_action_plan, o.1.current_phase))
        = some (some true, "complete") := by
  have hy : ∀ l : List Char, 'y' ∈ l → isSub "y".data l = true := by
    intro l hl
    exact (isSub_singleton 'y' l).mpr hl
  refine ⟨?_, ?_, ?_, by decide, by decide⟩
  · intro m hm
    exact ⟨List.any_eq_true.mpr ⟨"y", by decide, hy _ hm⟩,
           List.any_eq_true.mpr ⟨"y", by decide, hy _ hm⟩⟩
  · intro m h hmem
    have ht : containsAny (lowerChars m) studyAffirmWords = true :=
      List.any_eq_true.mpr ⟨"y", by decide, hy _ hmem⟩
    rw [h] at ht
    exact Bool.noConfusion ht
  · intro m h hmem
    have ht : containsAny (lowerChars m) saveAffirmWords = true :=
      List.any_eq_true.mpr ⟨"y", by decide, hy _ hmem⟩
    rw [h] at ht
    exact Bool.noConfusion ht

/-- Witness for C9 at concrete refusal strings. -/
theorem C9_witness :
    containsAny (lowerChars "not yet") studyAffirmWords = true
    ∧ containsAny (lowerChars "definitely not") saveAffirmWords = true :=
  ⟨(C9_y_substring_triggers_affirmative.1 "not yet" (by decide)).1,
   (C9_y_substring_triggers_affirmative.1 "definitely not" (by decide)).2⟩

/-! ## Claim C1 -/

/-- Claim C1 counterexample.  The claim says a turn on which the graph
invocation throws leaves the stored session exactly as before - in
particular the message log.  In the code the user message is appended to
the stored session (which `state` aliases) before the graph is invoked, so
after a generation failure the turn is reported as failed but the stored
message log has grown by the user message. -/
theorem C1_counterexample :
    (agent_endpoint envFailGen store0 req0).2 = .err 500 "Processing error: boom"
    ∧ (agent_endpoint envFailGen store0 req0).1 "u" ≠ some sDiag2
    ∧ (agent_endpoint envFailGen store0 req0).1 "u" =
        some { sDiag2 with messages := sDiag2.messages ++ [⟨Role.human, "hello"⟩] } := by
  decide

/-- Claim C1, amended: when the graph invocation throws, the turn is
reported as failed and the stored session keeps its phase, both phase
counters and all five structured records unchanged - but its message log
has already grown by the appended user message (and the stored api key was
overwritten), so the state is not exactly what it was before the turn. -/
theorem C1_amended_failed_turn_mutates_only_message_log :
    ∀ (env : Env) (store : Store) (req : Request) (s : AgentState) (e : PyErr),
      req.user_id ≠ "" → req.api_key ≠ "" →
      store (reqSid req) = some s →
      invokeGraph env (turnSetup s req) = .error e →
      (agent_endpoint env store req).2 = errResponse e
      ∧ (agent_endpoint env store req).1 (reqSid req) = some (turnSetup s req)
      ∧ (turnSetup s req).current_phase = s.current_phase
      ∧ (turnSetup s req).diagnostic_count = s.diagnostic_count
      ∧ (turnSetup s req).social_analysis_count = s.social_analysis_count
      ∧ (∀ k, recSet k (turnSetup s req) = recSet k s)
      ∧ (turnSetup s req).messages = s.messages ++ [⟨Role.human, req.message⟩] := by
  intro env store req s e h1 h2 hs hi
  unfold agent_endpoint agentTurn
  rw [if_neg h1, if_neg h2]
  refine ⟨?_, ?_, rfl, rfl, rfl, recSet_turnSetup s req, rfl⟩
  · simp only [hs, hi]
  · simp only [hs, hi, Store.update_self]

/-- Witness for the amended C1 theorem at a concrete failing turn. -/
theorem C1_amended_witness :
    (agent_endpoint envFailGen store0 req0).2 = errResponse (.genFailure "boom")
    ∧ (agent_endpoint envFailGen store0 req0).1 (reqSid req0) = some (turnSetup sDiag2 req0)
    ∧ (turnSetup sDiag2 req0).current_phase = sDiag2.current_phase
    ∧ (turnSetup sDiag2 req0).diagnostic_count = sDiag2.diagnostic_count
    ∧ (turnSetup sDiag2 req0).social_analysis_count = sDiag2.social_analysis_count
    ∧ (∀ k, recSet k (turnSetup sDiag2 req0) = recSet k sDiag2)
    ∧ (turnSetup sDiag2 req0).messages = sDiag2.messages ++ [⟨Role.human, req0.message⟩] :=
  C1_amended_failed_turn_mutates_only_message_log envFailGen store0 req0 sDiag2
    (.genFailure "boom") (by decide) (by decide) (by decide) (by decide)

/-! ## Claim C6 -/

/-- Claim C6 counterexample.  The claim says "complete" is terminal: no
subsequent user turn re-enters any phase node.  `get_entry_node` has no
entry for "complete" and falls through to "diagnostic", so a turn on a
complete session re-enters the diagnostic node (and, here, reruns the
whole pipeline, overwriting the stored diagnostic insight). -/
theorem C6_counterexample :
    sCompleteX.current_phase = "complete"
    ∧ get_entry_node "complete" = "diagnostic"
    ∧ (invokeGraph envAllOk sCompleteX).toOption.map
        (fun o => (decide (Event.entered "diagnostic" ∈ o.2), o.1.diagnostic_insight))
        = some (true, some dInsight0)
    ∧ sCompleteX.diagnostic_insight = some dInsightOld
    ∧ dInsightOld ≠ dInsight0 := by
  decide

/-- Claim C6, amended: phase "complete" is set only by the save-permission
node (any run ending in "complete" entered it), but "complete" is not
terminal - on any successful turn taken from a complete session the graph
re-enters the diagnostic node, because `get_entry_node` maps unknown
phases, "complete" included, to the default entry "diagnostic". -/
theorem C6_amended_complete_reentered_via_diagnostic :
    (∀ (env : Env) (s : AgentState) (out : AgentState × List Event),
      invokeGraph env s = .ok out → out.1.current_phase = "complete" →
      Event.entered "save_permission" ∈ out.2)
    ∧ (∀ (env : Env) (s : AgentState) (out : AgentState × List Event),
      invokeGraph env s = .ok out → s.current_phase = "complete" →
      Event.entered "diagnostic" ∈ out.2) := by
  constructor
  · intro env s out h hc
    obtain ⟨s', evs⟩ := out
    exact (invokeGraph_runOK h).2 hc
  · intro env s out h hc
    obtain ⟨s', evs⟩ := out
    exact invokeGraph_complete_entry hc h

/-- Witness for the amended C6 theorem at a concrete complete session. -/
theorem C6_amended_witness :
    Event.entered "diagnostic" ∈
      ((invokeGraph envAllOk sCompleteX).toOption.getD (initState "u" "k", [])).2 := by
  have h : invokeGraph envAllOk sCompleteX =
      .ok ((invokeGraph envAllOk sCompleteX).toOption.getD (initState "u" "k", [])) := by
    decide
  exact C6_amended_complete_reentered_via_diagnostic.2 envAllOk sCompleteX _ h (by decide)

/-! ## Claim C7 -/

/-- Claim C7 counterexample.  The claim says the per-phase counter resets
to zero exactly when a phase transition occurs.  On the turn that
transitions the session from "diagnostic" to "social_analysis",
`diagnostic_count` keeps its value 5 - no counter is ever reset. -/
theorem C7_counterexample :
    sDiag5.current_phase = "diagnostic"
    ∧ sDiag5.diagnostic_count = 5
    ∧ ((agent_endpoint envAllOk storeD5 reqD).1 "u").map
        (fun s => (s.current_phase, s.diagnostic_count)) = some ("social_analysis", 5) := by
  decide

/-- Claim C7, amended: both per-phase counters are monotonically
non-decreasing across every turn (committed or failed), and they are never
reset to zero - a phase transition leaves each counter at its final value;
only explicit session deletion discards them. -/
theorem C7_amended_counters_never_decrease :
    ∀ (env : Env) (store : Store) (req : Request) (sid : String) (s s' : AgentState),
      store sid = some s →
      (agent_endpoint env store req).1 sid = some s' →
      s.diagnostic_count ≤ s'.diagnostic_count
      ∧ s.social_analysis_count ≤ s'.social_analysis_count := by
  intro env store req sid s s' hs hs'
  unfold agent_endpoint agentTurn at hs'
  by_cases h1 : req.user_id = ""
  · rw [if_pos h1] at hs'
    have hs2 : store sid = some s' := hs'
    rw [hs] at hs2
    obtain rfl : s = s' := by injection hs2
    exact ⟨Nat.le_refl _, Nat.le_refl _⟩
  · rw [if_neg h1] at hs'
    by_cases h2 : req.api_key = ""
    · rw [if_pos h2] at hs'
      have hs2 : store sid = some s' := hs'
      rw [hs] at hs2
      obtain rfl : s = s' := by injection hs2
      exact ⟨Nat.le_refl _, Nat.le_refl _⟩
    · rw [if_neg h2] at hs'
      cases hstore : store (reqSid req) with
      | none =>
        simp only [hstore] at hs'
        by_cases hsid : sid = reqSid req
        · subst hsid
          rw [hs] at hstore
          exact absurd hstore (by simp)
        · rw [Store.update_other _ _ _ _ hsid] at hs'
          rw [hs] at hs'
          obtain rfl : s = s' := by injection hs'
          exact ⟨Nat.le_refl _, Nat.le_refl _⟩
      | some s0 =>
        cases hi : invokeGraph env (turnSetup s0 req) with
        | error e =>
          simp only [hstore, hi] at hs'
          by_cases hsid : sid = reqSid req
          · subst hsid
            rw [Store.update_self] at hs'
            obtain rfl : turnSetup s0 req = s' := by injection hs'
            rw [hs] at hstore
            obtain rfl : s = s0 := by injection hstore
            exact ⟨Nat.le_refl _, Nat.le_refl _⟩
          · rw [Store.update_other _ _ _ _ hsid] at hs'
            rw [hs] at hs'
            obtain rfl : s = s' := by injection hs'
            exact ⟨Nat.le_refl _, Nat.le_refl _⟩
        | ok out =>
          obtain ⟨s2, evsT⟩ := out
          simp only [hstore, hi] at hs'
          by_cases hsid : sid = reqSid req
          · subst hsid
            rw [Store.update_self] at hs'
            obtain rfl : s2 = s' := by injection hs'
            rw [hs] at hstore
            obtain rfl : s = s0 := by injection hstore
            have hrun := invokeGraph_runOK hi
            obtain ⟨⟨_, hd, hsoc, _⟩, _⟩ := hrun
            exact ⟨hd, hsoc⟩
          · rw [Store.update_other _ _ _ _ hsid, Store.update_other _ _ _ _ hsid] at hs'
            rw [hs] at hs'
            obtain rfl : s = s' := by injection hs'
            exact ⟨Nat.le_refl _, Nat.le_refl _⟩

/-- Witness for the amended C7 theorem at a concrete transition turn. -/
theorem C7_amended_witness :
    sDiag5.diagnostic_count ≤
      (((agent_endpoint envAllOk storeD5 reqD).1 "u").getD (initState "u" "k")).diagnostic_count
    ∧ sDiag5.social_analysis_count ≤
      (((agent_endpoint envAllOk storeD5 reqD).1 "u").getD (initState "u" "k")).social_analysis_count := by
  have h : (agent_endpoint envAllOk storeD5 reqD).1 "u" =
      some (((agent_endpoint envAllOk storeD5 reqD).1 "u").getD (initState "u" "k")) := by
    decide
  exact C7_amended_counters_never_decrease envAllOk storeD5 reqD "u" sDiag5 _ (by decide) h

/-! ## Claim C8 -/

/-- Claim C8: session state is created on the first message for a session
key, mutated on every subsequent (well-formed) message for that key, and
never destroyed by a turn; the only removing operation is the explicit
reset request. -/
theorem C8_session_lifecycle :
    (∀ (env : Env) (store : Store) (req : Request),
      req.user_id ≠ "" → req.api_key ≠ "" → store (reqSid req) = none →
      (agent_endpoint env store req).1 (reqSid req)
        = some (initState req.user_id req.api_key))
    ∧ (∀ (env : Env) (store : Store) (req : Request) (s : AgentState),
      req.user_id ≠ "" → req.api_key ≠ "" → store (reqSid req) = some s →
      ∃ s', (agent_endpoint env store req).1 (reqSid req) = some s'
            ∧ s.messages.length < s'.messages.length ∧ s' ≠ s)
    ∧ (∀ (env : Env) (store : Store) (req : Request) (sid : String),
      store sid ≠ none → (agent_endpoint env store req).1 sid ≠ none)
    ∧ (∀ (store : Store) (sid : String), (reset_session store (some sid)).1 sid = none) := by
  refine ⟨?_, ?_, ?_, ?_⟩
  · intro env store req h1 h2 hnone
    unfold agent_endpoint agentTurn
    rw [if_neg h1, if_neg h2]
    simp only [hnone, Store.update_self]
  · intro env store req s h1 h2 hs
    unfold agent_endpoint agentTurn
    rw [if_neg h1, if_neg h2]
    cases hi : invokeGraph env (turnSetup s req) with
    | error e =>
      refine ⟨turnSetup s req, ?_, ?_, ?_⟩
      · simp only [hs, hi, Store.update_self]
      · simp [turnSetup]
      · intro heq
        have hlen : s.messages.length < (turnSetup s req).messages.length := by
          simp [turnSetup]
        rw [heq] at hlen
        exact lt_irrefl _ hlen
    | ok out =>
      obtain ⟨s2, evsT⟩ := out
      have hrun := invokeGraph_runOK hi
      obtain ⟨⟨_, _, _, hm⟩, _⟩ := hrun
      have hlen : s.messages.length < s2.messages.length :=
        lt_trans (by simp [turnSetup]) hm
      refine ⟨s2, ?_, hlen, ?_⟩
      · simp only [hs, hi, Store.update_self]
      · intro heq
        rw [heq] at hlen
        exact lt_irrefl _ hlen
  · intro env store req sid hne
    unfold agent_endpoint agentTurn
    by_cases h1 : req.user_id = ""
    · rw [if_pos h1]; exact hne
    · rw [if_neg h1]
      by_cases h2 : req.api_key = ""
      · rw [if_pos h2]; exact hne
      · rw [if_neg h2]
        cases hstore : store (reqSid req) with
        | none =>
          simp only [hstore]
          by_cases hsid : sid = reqSid req
          · subst hsid; rw [Store.update_self]; simp
          · rw [Store.update_other _ _ _ _ hsid]; exact hne
        | some s0 =>
          cases hi : invokeGraph env (turnSetup s0 req) with
          | error e =>
            simp only [hstore, hi]
            by_cases hsid : sid = reqSid req
            · subst hsid; rw [Store.update_self]; simp
            · rw [Store.update_other _ _ _ _ hsid]; exact hne
          | ok out =>
            obtain ⟨s2, evsT⟩ := out
            simp only [hstore, hi]
            by_cases hsid : sid = reqSid req
            · subst hsid; rw [Store.update_self]; simp
            · rw [Store.update_other _ _ _ _ hsid, Store.update_other _ _ _ _ hsid]
              exact hne
  · intro store sid
    unfold reset_session
    exact Store.update_self _ _ _

/-- Witness for C8 at concrete inputs: creation on an unseen key, mutation
of an existing session, survival of a turn, and removal by reset. -/
theorem C8_witness :
    (agent_endpoint envAllOk emptyStore reqNew).1 (reqSid reqNew)
      = some (initState reqNew.user_id reqNew.api_key)
    ∧ (∃ s', (agent_endpoint envAllOk storeD5 reqD).1 (reqSid reqD) = some s'
             ∧ sDiag5.messages.length < s'.messages.length ∧ s' ≠ sDiag5)
    ∧ (agent_endpoint envAllOk storeD5 reqD).1 "u" ≠ none
    ∧ (reset_session storeD5 (some "u")).1 "u" = none :=
  ⟨C8_session_lifecycle.1 envAllOk emptyStore reqNew (by decide) (by decide) (by decide),
   C8_session_lifecycle.2.1 envAllOk storeD5 reqD sDiag5 (by decide) (by decide) (by decide),
   C8_session_lifecycle.2.2.1 envAllOk storeD5 reqD "u" (by decide),
   C8_session_lifecycle.2.2.2 storeD5 "u"⟩

/-! ## Claim C10 -/

/-- Claim C10: the first request for an unseen session key (with user id
and api key present) returns the fixed greeting in phase "diagnostic"
without invoking the graph, and the first message's content is discarded:
the created session log contains only the assistant greeting, and the
entire outcome is identical for every message content and every
collaborator environment. -/
theorem C10_first_message_discarded :
    ∀ (env : Env) (store : Store) (req : Request),
      req.user_id ≠ "" → req.api_key ≠ "" → store (reqSid req) = none →
      agentTurn env store req
        = (store.update (reqSid req) (some (initState req.user_id req.api_key)),
           .greetingRes greetingText "diagnostic" (reqSid req), [])
      ∧ (∀ m ∈ (initState req.user_id req.api_key).messages, m.role = Role.ai)
      ∧ (∀ (env2 : Env) (msg2 : String),
          agentTurn env2 store { req with message := msg2 } = agentTurn env store req) := by
  intro env store req h1 h2 hnone
  have hchar : ∀ (e : Env) (msg : String),
      agentTurn e store { req with message := msg } =
        (store.update (reqSid req) (some (initState req.user_id req.api_key)),
         .greetingRes greetingText "diagnostic" (reqSid req), []) := by
    intro e msg
    unfold agentTurn
    rw [if_neg (show ¬({ req with message := msg } : Request).user_id = "" from h1)]
    rw [if_neg (show ¬({ req with message := msg } : Request).api_key = "" from h2)]
    simp only [show store (reqSid { req with message := msg }) = none from hnone]
    rfl
  refine ⟨?_, ?_, ?_⟩
  · exact hchar env req.message
  · intro m hm
    have hm2 : m = ⟨Role.ai, greetingText⟩ := by
      simpa [initState] using hm
    rw [hm2]
  · intro env2 msg2
    exact (hchar env2 msg2).trans (hchar env req.message).symm

/-- Witness for C10 at a concrete unseen key. -/
theorem C10_witness :
    agentTurn envAllOk emptyStore reqNew
      = (emptyStore.update (reqSid reqNew) (some (initState reqNew.user_id reqNew.api_key)),
         .greetingRes greetingText "diagnostic" (reqSid reqNew), []) :=
  (C10_first_message_discarded envAllOk emptyStore reqNew
    (by decide) (by decide) (by decide)).1

/-! ## Claim C2 -/

/-- Claim C2: over every sequence of `/agent` turns, a session's stored
structured record (diagnostic insight, social analysis, conversation
insight, goals, action plan) is set if and only if a successful extraction
for that record was committed for that session - no record appears without
a completion signal, and a committed successful extraction leaves the
record non-null.  Moreover an extraction event for the diagnostic (resp.
social-analysis) record is emitted exactly when the node ran with its
completion condition `diagnostic_count ≥ 5` (resp.
`social_analysis_count ≥ 3`) satisfied. -/
theorem C2_record_iff_completion_signal :
    (∀ (inputs : List TurnInput) (sid : String) (s : AgentState),
      (runTurns inputs).1 sid = some s →
      ∀ k, (recSet k s = true ↔ (sid, Event.extracted k) ∈ (runTurns inputs).2))
    ∧ (∀ (env : Env) (s : AgentState) (out : AgentState × List Event),
      diagnostic_node env s = .ok out →
      (Event.extracted RecKind.diag ∈ out.2 ↔ 5 ≤ s.diagnostic_count))
    ∧ (∀ (env : Env) (s : AgentState) (out : AgentState × List Event),
      social_analysis_node env s = .ok out →
      (Event.extracted RecKind.social ∈ out.2 ↔ 3 ≤ s.social_analysis_count)) := by
  refine ⟨?_, ?_, ?_⟩
  · intro inputs sid s hs k
    exact (runTurns_inv inputs).1 sid s hs k
  · intro env s out h
    unfold diagnostic_node at h
    split at h
    · simp at h
    · split at h
      · rename_i hcount
        split at h
        · simp at h
        · injection h with h
          subst h
          simp [hcount]
      · rename_i hcount
        split at h
        · simp at h
        · injection h with h
          subst h
          simp [hcount]
  · intro env s out h
    unfold social_analysis_node at h
    split at h
    · simp at h
    · split at h
      · rename_i hcount
        split at h
        · simp at h
        · injection h with h
          subst h
          simp [hcount]
      · rename_i hcount
        split at h
        · simp at h
        · injection h with h
          subst h
          simp [hcount]

/-- Witness for C2 on a concrete one-turn history. -/
theorem C2_witness :
    recSet RecKind.diag (initState reqNew.user_id reqNew.api_key) = true
      ↔ (reqSid reqNew, Event.extracted RecKind.diag) ∈ (runTurns inputs1).2 := by
  have h : (runTurns inputs1).1 (reqSid reqNew)
      = some (initState reqNew.user_id reqNew.api_key) := by
    decide
  exact C2_record_iff_completion_signal.1 inputs1 (reqSid reqNew) _ h RecKind.diag
